import Mathlib

/-!
Shallow embedding of the client-side state/sync layer of `src/js/app.js`
(a single-page flashcard note manager): the retry/timeout executor
`withRetry`, the localStorage mirror, and the CRUD/miss-mark handlers,
together with theorems checking its specified behaviour.
-/

/-- Outcome of one raced attempt of a remote operation, as seen by the
caller of `fetchWithTimeout` (app.js lines 126-133): either the operation
settles first (`ok v` / `fail msg` with the operation's own error message),
or the timer fires first, which rejects with the message `"timeout"`
(modelled as `fail "timeout"`). -/
inductive AttemptResult (α : Type) where
  | ok : α → AttemptResult α
  | fail : String → AttemptResult α
  deriving Repr, DecidableEq

/-- Constant `MAX_RETRY` (app.js line 26). -/
def MAX_RETRY : Nat := 3

/-- Constant `TITLE_MAX_LENGTH` (app.js line 28). -/
def TITLE_MAX_LENGTH : Nat := 50

/-- Constant `CONTENT_MAX_LENGTH` (app.js line 29). -/
def CONTENT_MAX_LENGTH : Nat := 999

/-- The global state touched by `withRetry`: the circuit-breaker flag
`retryBlocked` (app.js line 57), the sequence of error codes displayed so
far via `showError` (modelled as an ordered list), and a count of how many
times the wrapped operation has been invoked. -/
structure ExecState where
  retryBlocked : Bool
  errors : List String
  attempts : Nat
  deriving Repr, DecidableEq

/-- Model of `showError(code)` (app.js lines 99-109): records the displayed code. -/
def showErr (s : ExecState) (code : String) : ExecState :=
  { s with errors := s.errors ++ [code] }

/-- Embedding of `withRetry` (app.js lines 138-158). The oracle
`operation` gives, for each retry count, the raced outcome of the
invocation made at that retry count (so a call chain starting at retry
count 0 consumes `operation 0`, `operation 1`, ...). Each invocation of
the underlying operation bumps `attempts`. -/
def withRetry {α : Type} (operation : Nat → AttemptResult α) (retryCount : Nat)
    (s : ExecState) : Except String α × ExecState :=
  if s.retryBlocked then
    (Except.error "Retry blocked", showErr s "E011")
  else
    let s1 : ExecState := { s with attempts := s.attempts + 1 }
    match operation retryCount with
    | AttemptResult.ok v => (Except.ok v, s1)
    | AttemptResult.fail msg =>
      if h : msg = "timeout" ∧ retryCount < MAX_RETRY - 1 then
        withRetry operation (retryCount + 1) (showErr s1 "E010")
      else if MAX_RETRY - 1 ≤ retryCount then
        (Except.error msg, showErr { s1 with retryBlocked := true } "E011")
      else
        (Except.error msg, s1)
termination_by MAX_RETRY - retryCount
decreasing_by omega

/-- Step lemma: a call while the circuit breaker is set fails immediately,
showing E011 and not invoking the operation. -/
theorem withRetry_step_blocked {α : Type} (operation : Nat → AttemptResult α)
    (retryCount : Nat) (s : ExecState) (hb : s.retryBlocked = true) :
    withRetry operation retryCount s =
      (Except.error "Retry blocked", showErr s "E011") := by
  rw [withRetry.eq_def]
  simp [hb]

/-- Step lemma: with the breaker clear, a successful raced attempt returns
the operation's value, having invoked it once. -/
theorem withRetry_step_ok {α : Type} (operation : Nat → AttemptResult α)
    (retryCount : Nat) (s : ExecState) (hb : s.retryBlocked = false)
    (v : α) (hop : operation retryCount = AttemptResult.ok v) :
    withRetry operation retryCount s =
      (Except.ok v, { s with attempts := s.attempts + 1 }) := by
  rw [withRetry.eq_def]
  simp [hb, hop]

/-- Step lemma: a timeout below the last allowed attempt shows E010 and
recurses with the retry count incremented. -/
theorem withRetry_step_retry {α : Type} (operation : Nat → AttemptResult α)
    (retryCount : Nat) (s : ExecState) (hb : s.retryBlocked = false)
    (hop : operation retryCount = AttemptResult.fail "timeout")
    (hr : retryCount < MAX_RETRY - 1) :
    withRetry operation retryCount s =
      withRetry operation (retryCount + 1)
        (showErr { s with attempts := s.attempts + 1 } "E010") := by
  rw [withRetry.eq_def]
  simp [hb, hop, hr]

/-- Step lemma: any failure at retry count at least `MAX_RETRY - 1` trips
the circuit breaker, shows E011 and rethrows the failure. -/
theorem withRetry_step_trip {α : Type} (operation : Nat → AttemptResult α)
    (retryCount : Nat) (s : ExecState) (hb : s.retryBlocked = false)
    (msg : String) (hop : operation retryCount = AttemptResult.fail msg)
    (hr : MAX_RETRY - 1 ≤ retryCount) :
    withRetry operation retryCount s =
      (Except.error msg,
        showErr { s with retryBlocked := true, attempts := s.attempts + 1 }
          "E011") := by
  rw [withRetry.eq_def]
  have hnr : ¬ (msg = "timeout" ∧ retryCount < MAX_RETRY - 1) := by
    rintro ⟨-, hlt⟩; omega
  simp [hb, hop, hnr, hr]

/-- Step lemma: a non-timeout failure below the last allowed attempt is
rethrown unchanged, with no retry and no breaker trip. -/
theorem withRetry_step_throw {α : Type} (operation : Nat → AttemptResult α)
    (retryCount : Nat) (s : ExecState) (hb : s.retryBlocked = false)
    (msg : String) (hop : operation retryCount = AttemptResult.fail msg)
    (hmsg : msg ≠ "timeout") (hr : retryCount < MAX_RETRY - 1) :
    withRetry operation retryCount s =
      (Except.error msg, { s with attempts := s.attempts + 1 }) := by
  rw [withRetry.eq_def]
  have hnr : ¬ (msg = "timeout" ∧ retryCount < MAX_RETRY - 1) := by
    rintro ⟨he, -⟩; exact hmsg he
  have hnr2 : ¬ (MAX_RETRY - 1 ≤ retryCount) := by omega
  simp [hb, hop, hnr, hnr2]

/-- C1: with the default max-attempts of 3 and the breaker initially
clear, an operation that times out on every attempt is invoked exactly 3
times, two E010 "retrying" notifications are shown, then the breaker is
set, E011 is shown, and the call fails with the timeout error. -/
theorem C1_withRetry_timeout_exhaustion {α : Type}
    (operation : Nat → AttemptResult α)
    (hop : ∀ n, operation n = AttemptResult.fail "timeout")
    (s : ExecState) (hb : s.retryBlocked = false) :
    withRetry operation 0 s =
      (Except.error "timeout",
        { retryBlocked := true,
          errors := s.errors ++ ["E010", "E010", "E011"],
          attempts := s.attempts + 3 }) := by
  have e1 := withRetry_step_retry operation 0 s hb (hop 0) (by decide)
  have hb1 : (ExecState.mk s.retryBlocked (s.errors ++ ["E010"])
      (s.attempts + 1)).retryBlocked = false := hb
  have e2 := withRetry_step_retry operation (0 + 1)
      (ExecState.mk s.retryBlocked (s.errors ++ ["E010"]) (s.attempts + 1))
      hb1 (hop (0 + 1)) (by decide)
  have hb2 : (ExecState.mk s.retryBlocked (s.errors ++ ["E010"] ++ ["E010"])
      (s.attempts + 1 + 1)).retryBlocked = false := hb
  have e3 := withRetry_step_trip operation (0 + 1 + 1)
      (ExecState.mk s.retryBlocked (s.errors ++ ["E010"] ++ ["E010"])
        (s.attempts + 1 + 1))
      hb2 "timeout" (hop (0 + 1 + 1)) (by decide)
  rw [e1.trans (e2.trans e3)]
  simp [showErr, List.append_assoc]

/-- Witness for C1: the always-timeout operation from the empty state. -/
theorem C1_witness :
    withRetry (fun _ => (AttemptResult.fail "timeout" : AttemptResult Nat)) 0
        { retryBlocked := false, errors := [], attempts := 0 } =
      (Except.error "timeout",
        { retryBlocked := true, errors := ["E010", "E010", "E011"],
          attempts := 3 }) := by
  have h := C1_withRetry_timeout_exhaustion
      (fun _ => (AttemptResult.fail "timeout" : AttemptResult Nat))
      (fun _ => rfl)
      { retryBlocked := false, errors := [], attempts := 0 } rfl
  simpa using h

/-- C2: while `retryBlocked` is set, every `withRetry` call fails
immediately with the "Retry blocked" error, shows E011, and never invokes
the underlying operation (the attempt count is unchanged). -/
theorem C2_withRetry_short_circuits_when_blocked {α : Type}
    (operation : Nat → AttemptResult α) (retryCount : Nat)
    (s : ExecState) (hb : s.retryBlocked = true) :
    withRetry operation retryCount s =
      (Except.error "Retry blocked",
        { s with errors := s.errors ++ ["E011"] })
    ∧ (withRetry operation retryCount s).2.attempts = s.attempts := by
  have h := withRetry_step_blocked operation retryCount s hb
  exact ⟨h, by rw [h]; rfl⟩

/-- Witness for C2 at a concrete blocked state. -/
theorem C2_witness :
    withRetry (fun _ => (AttemptResult.ok 7 : AttemptResult Nat)) 0
        { retryBlocked := true, errors := [], attempts := 5 } =
      (Except.error "Retry blocked",
        { retryBlocked := true, errors := ["E011"], attempts := 5 }) := by
  have h := C2_withRetry_short_circuits_when_blocked
      (fun _ => (AttemptResult.ok 7 : AttemptResult Nat)) 0
      { retryBlocked := true, errors := [], attempts := 5 } rfl
  simpa using h.1

/-- C4: a non-timeout failure on the first attempt (retry count 0,
breaker clear) is propagated unchanged: the operation is invoked exactly
once, no retry happens, no notification is shown, and the breaker stays
clear. -/
theorem C4_nontimeout_failure_not_retried {α : Type}
    (operation : Nat → AttemptResult α) (msg : String)
    (hmsg : msg ≠ "timeout") (s : ExecState) (hb : s.retryBlocked = false)
    (hop : operation 0 = AttemptResult.fail msg) :
    withRetry operation 0 s =
      (Except.error msg, { s with attempts := s.attempts + 1 }) :=
  withRetry_step_throw operation 0 s hb msg hop hmsg (by decide)

/-- Witness for C4 at a concrete permission-denied failure. -/
theorem C4_witness :
    withRetry (fun _ => (AttemptResult.fail "permission-denied" :
        AttemptResult Nat)) 0
        { retryBlocked := false, errors := [], attempts := 0 } =
      (Except.error "permission-denied",
        { retryBlocked := false, errors := [], attempts := 1 }) := by
  have h := C4_nontimeout_failure_not_retried
      (fun _ => (AttemptResult.fail "permission-denied" : AttemptResult Nat))
      "permission-denied" (by decide)
      { retryBlocked := false, errors := [], attempts := 0 } rfl rfl
  simpa using h

/-- C10: once the retry count has reached `MAX_RETRY - 1`, any failure of
the raced operation — timeout or not — sets the circuit breaker, shows
E011, and rethrows that failure. -/
theorem C10_any_final_failure_trips_breaker {α : Type}
    (operation : Nat → AttemptResult α) (retryCount : Nat)
    (hr : MAX_RETRY - 1 ≤ retryCount) (msg : String) (s : ExecState)
    (hb : s.retryBlocked = false)
    (hop : operation retryCount = AttemptResult.fail msg) :
    withRetry operation retryCount s =
      (Except.error msg,
        { retryBlocked := true, errors := s.errors ++ ["E011"],
          attempts := s.attempts + 1 }) := by
  rw [withRetry_step_trip operation retryCount s hb msg hop hr]
  rfl

/-- Witness for C10: a non-timeout failure at the final retry count. -/
theorem C10_witness :
    withRetry
      (fun n => if n < 2 then (AttemptResult.fail "timeout" : AttemptResult Nat)
        else AttemptResult.fail "permission-denied") 2
      { retryBlocked := false, errors := ["E010", "E010"], attempts := 2 } =
      (Except.error "permission-denied",
        { retryBlocked := true, errors := ["E010", "E010", "E011"],
          attempts := 3 }) := by
  have h := C10_any_final_failure_trips_breaker
      (fun n => if n < 2 then (AttemptResult.fail "timeout" : AttemptResult Nat)
        else AttemptResult.fail "permission-denied") 2 (by decide)
      "permission-denied"
      { retryBlocked := false, errors := ["E010", "E010"], attempts := 2 }
      rfl rfl
  simpa using h

/-- A note record as held in `notesData` (app.js lines 644-652 and
400-403): the Firestore document fields plus the document id. -/
structure Note where
  id : String
  Title : String
  Question : String
  Answer : String
  Explain : String
  Date : String
  MissCount : Nat
  uid : String
  deriving Repr, DecidableEq

/-- Embedding of `saveToLocalStorage` (app.js lines 163-165): overwrites the stored
value with the serialization of the full collection. `stringify` stands
for `JSON.stringify`; the storage cell is the value under the key
`notes`, `none` when absent. -/
def saveToLocalStorage (stringify : List Note → String) (data : List Note) :
    Option String :=
  some (stringify data)

/-- Embedding of `getFromLocalStorage` (app.js lines 170-173):
`data ? JSON.parse(data) : []`. An absent value and the empty string (the
only falsy string) give `[]`; a present, non-empty value is parsed, and a
parse failure propagates as a thrown error, since the source has no
try/catch around `JSON.parse`. `parse` stands for `JSON.parse` producing
a note collection (`none` meaning it throws). -/
def getFromLocalStorage (parse : String → Option (List Note))
    (storage : Option String) : Except String (List Note) :=
  match storage with
  | none => Except.ok []
  | some data =>
    if data = "" then Except.ok []
    else
      match parse data with
      | some notes => Except.ok notes
      | none => Except.error "SyntaxError"

/-- Counterexample to C3 as stated: on a corrupt (unparseable) stored
value, `getFromLocalStorage` raises the parse error instead of returning
an empty collection. -/
theorem C3_counterexample :
    getFromLocalStorage (fun _ => none) (some "x") =
        Except.error "SyntaxError"
      ∧ getFromLocalStorage (fun _ => none) (some "x") ≠ Except.ok [] := by
  exact ⟨rfl, fun h => Except.noConfusion h⟩

/-- C3 amended: `getFromLocalStorage` returns the stored collection when
the stored value parses, and an empty collection when no value is stored
or the stored value is the empty string; but a corrupt (unparseable)
non-empty stored value raises the parse error rather than degrading to an
empty collection. -/
theorem C3_load_amended (parse : String → Option (List Note)) :
    getFromLocalStorage parse none = Except.ok []
    ∧ (∀ data notes, data ≠ "" → parse data = some notes →
        getFromLocalStorage parse (some data) = Except.ok notes)
    ∧ getFromLocalStorage parse (some "") = Except.ok []
    ∧ (∀ data, data ≠ "" → parse data = none →
        getFromLocalStorage parse (some data) =
          Except.error "SyntaxError") := by
  refine ⟨rfl, ?_, ?_, ?_⟩
  · intro data notes hne hp
    simp [getFromLocalStorage, hne, hp]
  · simp [getFromLocalStorage]
  · intro data hne hp
    simp [getFromLocalStorage, hne, hp]

/-- Witness for the amended C3 at a concrete one-note parse table. -/
theorem C3_witness :
    getFromLocalStorage
        (fun d => if d = "[]" then some [] else none) (some "[]") =
      Except.ok [] := by
  have h := (C3_load_amended
      (fun d => if d = "[]" then some [] else none)).2.1 "[]" []
      (by decide) (by decide)
  simpa using h

/-- Embedding of `loadNotesFromFirestore` (app.js lines 394-406): runs the owner query
through `withRetry`; on success the snapshot's records become the new
`notesData` and are saved to the mirror; on failure the error propagates
and the mirror is untouched. `getDocsOp` is the raced outcome oracle for
`getDocs(q)`, already mapped to note records. Returns (result, executor
state, mirror). -/
def loadNotesFromFirestore (getDocsOp : Nat → AttemptResult (List Note))
    (stringify : List Note → String) (s : ExecState)
    (mirror : Option String) :
    Except String (List Note) × ExecState × Option String :=
  match withRetry getDocsOp 0 s with
  | (Except.ok docs, s1) => (Except.ok docs, s1, saveToLocalStorage stringify docs)
  | (Except.error e, s1) => (Except.error e, s1, mirror)

/-- Data part of `renderListPage` (app.js lines 375-389): try
`loadNotesFromFirestore`; on failure fall back to
`getFromLocalStorage()` as `notesData`. If the fallback read itself
throws, the exception escapes and `notesData` keeps its prior value.
Returns (result, notesData, executor state, mirror). -/
def renderListPage (getDocsOp : Nat → AttemptResult (List Note))
    (stringify : List Note → String) (parse : String → Option (List Note))
    (notesData : List Note) (s : ExecState) (mirror : Option String) :
    Except String Unit × List Note × ExecState × Option String :=
  match loadNotesFromFirestore getDocsOp stringify s mirror with
  | (Except.ok docs, s1, mirror1) => (Except.ok (), docs, s1, mirror1)
  | (Except.error _, s1, mirror1) =>
    match getFromLocalStorage parse mirror1 with
    | Except.ok fallback => (Except.ok (), fallback, s1, mirror1)
    | Except.error e => (Except.error e, notesData, s1, mirror1)

/-- C5: on a successful remote query the in-memory collection is replaced
by the remote result and persisted to the mirror, whatever the mirror
held before; when the remote query fails after a prior successful save of
`prev` to the mirror, the in-memory collection becomes exactly `prev` and
no error is surfaced beyond what the executor emitted. -/
theorem C5_list_success_and_fallback
    (getDocsOp : Nat → AttemptResult (List Note))
    (stringify : List Note → String) (parse : String → Option (List Note))
    (notesData : List Note) (s : ExecState) :
    (∀ mirror docs s1, withRetry getDocsOp 0 s = (Except.ok docs, s1) →
      renderListPage getDocsOp stringify parse notesData s mirror =
        (Except.ok (), docs, s1, some (stringify docs)))
    ∧ (∀ prev e s1, stringify prev ≠ "" → parse (stringify prev) = some prev →
        withRetry getDocsOp 0 s = (Except.error e, s1) →
        renderListPage getDocsOp stringify parse notesData s
            (saveToLocalStorage stringify prev) =
          (Except.ok (), prev, s1, some (stringify prev))) := by
  constructor
  · intro mirror docs s1 hw
    simp [renderListPage, loadNotesFromFirestore, hw, saveToLocalStorage]
  · intro prev e s1 hne hp hw
    simp [renderListPage, loadNotesFromFirestore, hw, saveToLocalStorage,
      getFromLocalStorage, hne, hp]

/-- Witness for C5: a successful query overwrites a stale mirror value,
and a one-note mirror survives a remote failure. -/
theorem C5_witness :
    renderListPage
      (fun _ => (AttemptResult.ok
        [Note.mk "n1" "Algebra" "Q" "A" "" "2024-01-01" 0 "u1"] :
          AttemptResult (List Note)))
      (fun _ => "S")
      (fun d => if d = "S" then
          some [Note.mk "n1" "Algebra" "Q" "A" "" "2024-01-01" 0 "u1"]
        else none)
      [] { retryBlocked := false, errors := [], attempts := 0 }
      (some "OLD") =
    (Except.ok (), [Note.mk "n1" "Algebra" "Q" "A" "" "2024-01-01" 0 "u1"],
      { retryBlocked := false, errors := [], attempts := 1 }, some "S")
    ∧ renderListPage (fun _ => (AttemptResult.fail "unavailable" :
        AttemptResult (List Note)))
      (fun _ => "S")
      (fun d => if d = "S" then
          some [Note.mk "n1" "Algebra" "Q" "A" "" "2024-01-01" 0 "u1"]
        else none)
      [] { retryBlocked := false, errors := [], attempts := 0 }
      (saveToLocalStorage (fun _ => "S")
        [Note.mk "n1" "Algebra" "Q" "A" "" "2024-01-01" 0 "u1"]) =
    (Except.ok (), [Note.mk "n1" "Algebra" "Q" "A" "" "2024-01-01" 0 "u1"],
      { retryBlocked := false, errors := [], attempts := 1 },
      some "S") := by
  have hsucc := (C5_list_success_and_fallback
      (fun _ => (AttemptResult.ok
        [Note.mk "n1" "Algebra" "Q" "A" "" "2024-01-01" 0 "u1"] :
          AttemptResult (List Note)))
      (fun _ => "S")
      (fun d => if d = "S" then
          some [Note.mk "n1" "Algebra" "Q" "A" "" "2024-01-01" 0 "u1"]
        else none)
      [] { retryBlocked := false, errors := [], attempts := 0 }).1
      (some "OLD")
      [Note.mk "n1" "Algebra" "Q" "A" "" "2024-01-01" 0 "u1"]
      { retryBlocked := false, errors := [], attempts := 1 }
      (withRetry_step_ok
        (fun _ => (AttemptResult.ok
          [Note.mk "n1" "Algebra" "Q" "A" "" "2024-01-01" 0 "u1"] :
            AttemptResult (List Note)))
        0 { retryBlocked := false, errors := [], attempts := 0 } rfl
        [Note.mk "n1" "Algebra" "Q" "A" "" "2024-01-01" 0 "u1"] rfl)
  have h := (C5_list_success_and_fallback
      (fun _ => (AttemptResult.fail "unavailable" : AttemptResult (List Note)))
      (fun _ => "S")
      (fun d => if d = "S" then
          some [Note.mk "n1" "Algebra" "Q" "A" "" "2024-01-01" 0 "u1"]
        else none)
      [] { retryBlocked := false, errors := [], attempts := 0 }).2
      [Note.mk "n1" "Algebra" "Q" "A" "" "2024-01-01" 0 "u1"]
      "unavailable" { retryBlocked := false, errors := [], attempts := 1 }
      (by decide) (by decide)
      (withRetry_step_throw
        (fun _ => (AttemptResult.fail "unavailable" : AttemptResult (List Note)))
        0 { retryBlocked := false, errors := [], attempts := 0 } rfl
        "unavailable" rfl (by decide) (by decide))
  exact ⟨by simpa using hsucc, by simpa using h⟩

/-- Model of the JavaScript `String.prototype.trim` builtin used on every
field read (e.g. app.js lines 610-613, 865): strips leading and trailing
whitespace characters. -/
def jsTrim (s : String) : String :=
  String.mk
    (((s.data.dropWhile Char.isWhitespace).reverse.dropWhile
      Char.isWhitespace).reverse)

/-- Which path a modal handler took: an early return after a validation
`showError` (with its code), an early return because of the one-shot
guard, a caught remote failure (with the code shown), or the success
path. -/
inductive HandlerOutcome where
  | success : HandlerOutcome
  | noop : HandlerOutcome
  | validationError : String → HandlerOutcome
  | remoteError : String → HandlerOutcome
  deriving Repr, DecidableEq

/-- The `findIndex`-then-assign pattern (app.js lines 801-804 and
1106-1109): applies `f` to the first element whose `id` matches, leaving
the rest unchanged; the identity when no element matches. -/
def updateFirstById (noteId : String) (f : Note → Note) :
    List Note → List Note
  | [] => []
  | n :: ns =>
    if n.id = noteId then f n :: ns
    else n :: updateFirstById noteId f ns

/-- The `{ ...notesData[index], ...updatedData }` merge of `handleEdit`
(app.js lines 789-803): replaces exactly the four edited fields. -/
def applyEdit (title question answer explain : String) (n : Note) : Note :=
  { n with
    Title := title
    Question := question
    Answer := answer
    Explain := explain }

/-- Embedding of `handleRegister` (app.js lines 609-668), with the DOM reads replaced
by the raw field inputs (each trimmed as in the source) and `addDocOp`
the raced-outcome oracle for `addDoc` returning the generated document
id. Returns (outcome, notesData, executor state, mirror). -/
def handleRegister (rawTitle rawQuestion rawAnswer rawExplain : String)
    (userUid now : String) (addDocOp : Nat → AttemptResult String)
    (stringify : List Note → String) (notesData : List Note)
    (s : ExecState) (mirror : Option String) :
    HandlerOutcome × List Note × ExecState × Option String :=
  let title := jsTrim rawTitle
  let question := jsTrim rawQuestion
  let answer := jsTrim rawAnswer
  let explain := jsTrim rawExplain
  if title = "" ∨ question = "" ∨ answer = "" then
    (HandlerOutcome.validationError "E007", notesData, showErr s "E007", mirror)
  else if TITLE_MAX_LENGTH < title.length then
    (HandlerOutcome.validationError "E012", notesData, showErr s "E012", mirror)
  else if CONTENT_MAX_LENGTH < question.length
      ∨ CONTENT_MAX_LENGTH < answer.length
      ∨ CONTENT_MAX_LENGTH < explain.length then
    (HandlerOutcome.validationError "E013", notesData, showErr s "E013", mirror)
  else if notesData.any (fun n => n.Title == title) then
    (HandlerOutcome.validationError "E008", notesData, showErr s "E008", mirror)
  else
    let newNote : Note :=
      { id := "", Title := title, Question := question, Answer := answer,
        Explain := explain, Date := now, MissCount := 0, uid := userUid }
    match withRetry addDocOp 0 s with
    | (Except.ok docId, s1) =>
      let notesData1 := notesData ++ [{ newNote with id := docId }]
      (HandlerOutcome.success, notesData1, s1,
        saveToLocalStorage stringify notesData1)
    | (Except.error _, s1) =>
      (HandlerOutcome.remoteError "E004", notesData, showErr s1 "E004", mirror)

/-- Embedding of `handleEdit` (app.js lines 754-815), with the DOM reads replaced by
the raw field inputs and `updateDocOp` the raced-outcome oracle for
`updateDoc`. Returns (outcome, notesData, executor state, mirror). -/
def handleEdit (note : Note) (rawTitle rawQuestion rawAnswer rawExplain : String)
    (updateDocOp : Nat → AttemptResult Unit) (stringify : List Note → String)
    (notesData : List Note) (s : ExecState) (mirror : Option String) :
    HandlerOutcome × List Note × ExecState × Option String :=
  let title := jsTrim rawTitle
  let question := jsTrim rawQuestion
  let answer := jsTrim rawAnswer
  let explain := jsTrim rawExplain
  if title = "" ∨ question = "" ∨ answer = "" then
    (HandlerOutcome.validationError "E007", notesData, showErr s "E007", mirror)
  else if TITLE_MAX_LENGTH < title.length then
    (HandlerOutcome.validationError "E012", notesData, showErr s "E012", mirror)
  else if CONTENT_MAX_LENGTH < question.length
      ∨ CONTENT_MAX_LENGTH < answer.length
      ∨ CONTENT_MAX_LENGTH < explain.length then
    (HandlerOutcome.validationError "E013", notesData, showErr s "E013", mirror)
  else if notesData.any (fun n => n.Title == title && n.id != note.id) then
    (HandlerOutcome.validationError "E008", notesData, showErr s "E008", mirror)
  else
    match withRetry updateDocOp 0 s with
    | (Except.ok _, s1) =>
      if notesData.any (fun n => n.id == note.id) then
        let notesData1 :=
          updateFirstById note.id (applyEdit title question answer explain)
            notesData
        (HandlerOutcome.success, notesData1, s1,
          saveToLocalStorage stringify notesData1)
      else
        (HandlerOutcome.success, notesData, s1, mirror)
    | (Except.error _, s1) =>
      (HandlerOutcome.remoteError "E005", notesData, showErr s1 "E005", mirror)

/-- Embedding of `handleDelete` (app.js lines 864-895), with the confirmation input
trimmed as in the source and `deleteDocOp` the raced-outcome oracle for
`deleteDoc`. Returns (outcome, notesData, executor state, mirror). -/
def handleDelete (note : Note) (rawConfirmTitle : String)
    (deleteDocOp : Nat → AttemptResult Unit) (stringify : List Note → String)
    (notesData : List Note) (s : ExecState) (mirror : Option String) :
    HandlerOutcome × List Note × ExecState × Option String :=
  let confirmTitle := jsTrim rawConfirmTitle
  if confirmTitle ≠ note.Title then
    (HandlerOutcome.validationError "E009", notesData, showErr s "E009", mirror)
  else
    match withRetry deleteDocOp 0 s with
    | (Except.ok _, s1) =>
      let notesData1 := notesData.filter (fun n => n.id ≠ note.id)
      (HandlerOutcome.success, notesData1, s1,
        saveToLocalStorage stringify notesData1)
    | (Except.error _, s1) =>
      (HandlerOutcome.remoteError "E006", notesData, showErr s1 "E006", mirror)

/-- Embedding of `handleMissMark` (app.js lines 1092-1117): guarded by the one-shot
`missMarkUsed` flag; the remote update sends `note.MissCount + 1`
(returned here as the `Option Nat` payload, `none` when no remote call is
made); on success the first in-memory record with the note's id gets the
new count and the mirror is saved; on failure the guard is released and
E005 is shown. Returns (outcome, sent payload, missMarkUsed, notesData,
executor state, mirror). -/
def handleMissMark (note : Note) (updateDocOp : Nat → AttemptResult Unit)
    (stringify : List Note → String) (missMarkUsed : Bool)
    (notesData : List Note) (s : ExecState) (mirror : Option String) :
    HandlerOutcome × Option Nat × Bool × List Note × ExecState ×
      Option String :=
  if missMarkUsed then
    (HandlerOutcome.noop, none, missMarkUsed, notesData, s, mirror)
  else
    let newMissCount := note.MissCount + 1
    match withRetry updateDocOp 0 s with
    | (Except.ok _, s1) =>
      if notesData.any (fun n => n.id == note.id) then
        let notesData1 :=
          updateFirstById note.id (fun n => { n with MissCount := newMissCount })
            notesData
        (HandlerOutcome.success, some newMissCount, true, notesData1, s1,
          saveToLocalStorage stringify notesData1)
      else
        (HandlerOutcome.success, some newMissCount, true, notesData, s1, mirror)
    | (Except.error _, s1) =>
      (HandlerOutcome.remoteError "E005", some newMissCount, false, notesData,
        showErr s1 "E005", mirror)

/-- The ephemeral quiz state mutated by `renderRandomPage` (app.js lines
58-60). -/
structure QuizState where
  usedProblemIds : List String
  currentProblemId : Option String
  missMarkUsed : Bool
  deriving Repr, DecidableEq

/-- The display transition of `renderRandomPage` for a selected note
(app.js lines 1013-1015): records the shown problem and clears the
one-shot miss-mark guard. -/
def displayProblem (q : QuizState) (noteId : String) : QuizState :=
  { usedProblemIds := q.usedProblemIds ++ [noteId],
    currentProblemId := some noteId,
    missMarkUsed := false }


/-- Behaviour of `updateFirstById` on a collection split at its first matching
element rewrites exactly that element. -/
theorem updateFirstById_split (noteId : String) (f : Note → Note)
    (pre : List Note) (n : Note) (post : List Note)
    (hpre : ∀ m ∈ pre, m.id ≠ noteId) (hn : n.id = noteId) :
    updateFirstById noteId f (pre ++ n :: post) = pre ++ f n :: post := by
  induction pre with
  | nil => simp [updateFirstById, hn]
  | cons m ms ih =>
    have hm : m.id ≠ noteId := hpre m (by simp)
    have ih' := ih (fun x hx => hpre x (by simp [hx]))
    calc updateFirstById noteId f ((m :: ms) ++ n :: post)
        = m :: updateFirstById noteId f (ms ++ n :: post) := by
          rw [List.cons_append, updateFirstById, if_neg hm]
      _ = m :: (ms ++ f n :: post) := by rw [ih']
      _ = (m :: ms) ++ f n :: post := by rw [List.cons_append]

/-- The frame of a note record untouched by an edit: document id,
creation timestamp, miss count, and owner id. -/
def framePreserved (m n : Note) : Prop :=
  m.id = n.id ∧ m.Date = n.Date ∧ m.MissCount = n.MissCount ∧ m.uid = n.uid

/-- Every collection is frame-preserved by itself. -/
theorem framePreserved_refl (l : List Note) :
    List.Forall₂ framePreserved l l := by
  induction l with
  | nil => exact List.Forall₂.nil
  | cons n ns ih => exact List.Forall₂.cons ⟨rfl, rfl, rfl, rfl⟩ ih

/-- Applying an edit through `updateFirstById` preserves the frame of
every record in the collection. -/
theorem updateFirstById_applyEdit_frame (noteId t q a e : String)
    (l : List Note) :
    List.Forall₂ framePreserved
      (updateFirstById noteId (applyEdit t q a e) l) l := by
  induction l with
  | nil => exact List.Forall₂.nil
  | cons n ns ih =>
    by_cases h : n.id = noteId
    · simp only [updateFirstById, if_pos h]
      exact List.Forall₂.cons ⟨rfl, rfl, rfl, rfl⟩ (framePreserved_refl ns)
    · simp only [updateFirstById, if_neg h]
      exact List.Forall₂.cons ⟨rfl, rfl, rfl, rfl⟩ ih

/-- C6: a create whose trimmed title equals the title of a note already
in the in-memory collection (case-sensitive) fails with E008
(DuplicateTitle) before any remote call, leaving the collection, the
attempt count and the mirror unchanged; on update the uniqueness check
excludes the note being updated, so keeping a note's own title never
produces E008. -/
theorem C6_duplicate_title_scope
    (rawTitle rawQuestion rawAnswer rawExplain userUid now : String)
    (addDocOp : Nat → AttemptResult String) (note : Note)
    (updateDocOp : Nat → AttemptResult Unit)
    (stringify : List Note → String) (notesData : List Note)
    (s : ExecState) (mirror : Option String)
    (hT : jsTrim rawTitle ≠ "") (hQ : jsTrim rawQuestion ≠ "")
    (hA : jsTrim rawAnswer ≠ "")
    (hTL : (jsTrim rawTitle).length ≤ TITLE_MAX_LENGTH)
    (hQL : (jsTrim rawQuestion).length ≤ CONTENT_MAX_LENGTH)
    (hAL : (jsTrim rawAnswer).length ≤ CONTENT_MAX_LENGTH)
    (hEL : (jsTrim rawExplain).length ≤ CONTENT_MAX_LENGTH) :
    ((∃ m ∈ notesData, m.Title = jsTrim rawTitle) →
      handleRegister rawTitle rawQuestion rawAnswer rawExplain userUid now
          addDocOp stringify notesData s mirror =
        (HandlerOutcome.validationError "E008", notesData, showErr s "E008",
          mirror))
    ∧ ((∀ m ∈ notesData, m.Title = jsTrim rawTitle → m.id = note.id) →
        (handleEdit note rawTitle rawQuestion rawAnswer rawExplain
            updateDocOp stringify notesData s mirror).1 ≠
          HandlerOutcome.validationError "E008") := by
  have hTL' : ¬ (TITLE_MAX_LENGTH < (jsTrim rawTitle).length) :=
    Nat.not_lt.mpr hTL
  have hQL' : ¬ (CONTENT_MAX_LENGTH < (jsTrim rawQuestion).length) :=
    Nat.not_lt.mpr hQL
  have hAL' : ¬ (CONTENT_MAX_LENGTH < (jsTrim rawAnswer).length) :=
    Nat.not_lt.mpr hAL
  have hEL' : ¬ (CONTENT_MAX_LENGTH < (jsTrim rawExplain).length) :=
    Nat.not_lt.mpr hEL
  constructor
  · rintro ⟨m, hm, hmt⟩
    have hdup : notesData.any (fun n => n.Title == jsTrim rawTitle) = true := by
      rw [List.any_eq_true]
      exact ⟨m, hm, by simp [hmt]⟩
    simp [handleRegister, hT, hQ, hA, hTL', hQL', hAL', hEL', hdup]
  · intro hself
    have hdup2 : notesData.any
        (fun n => n.Title == jsTrim rawTitle && n.id != note.id) = false := by
      rw [List.any_eq_false]
      intro m hm
      simp only [Bool.and_eq_true, beq_iff_eq, bne_iff_ne, not_and]
      intro hmt hne
      exact hne (hself m hm hmt)
    rcases hw : withRetry updateDocOp 0 s with ⟨r, s1⟩
    cases r with
    | ok u =>
      by_cases hfound : notesData.any (fun n => n.id == note.id)
      · simp [handleEdit, hT, hQ, hA, hTL', hQL', hAL', hEL', hdup2, hw, hfound]
      · simp [handleEdit, hT, hQ, hA, hTL', hQL', hAL', hEL', hdup2, hw, hfound]
    | error e =>
      simp [handleEdit, hT, hQ, hA, hTL', hQL', hAL', hEL', hdup2, hw]

/-- Witness for C6: duplicate "Algebra" create rejected; an edit keeping
the note's own title is not a collision. -/
theorem C6_witness :
    handleRegister "Algebra" "Q" "A" "" "u1" "2024-02-02"
        (fun _ => AttemptResult.ok "id9") (fun _ => "S")
        [Note.mk "n1" "Algebra" "Q" "A" "" "2024-01-01" 0 "u1"]
        { retryBlocked := false, errors := [], attempts := 0 } none =
      (HandlerOutcome.validationError "E008",
        [Note.mk "n1" "Algebra" "Q" "A" "" "2024-01-01" 0 "u1"],
        { retryBlocked := false, errors := ["E008"], attempts := 0 }, none)
    ∧ (handleEdit (Note.mk "n1" "Algebra" "Q" "A" "" "2024-01-01" 0 "u1")
        "Algebra" "Q" "A" "" (fun _ => AttemptResult.ok ()) (fun _ => "S")
        [Note.mk "n1" "Algebra" "Q" "A" "" "2024-01-01" 0 "u1"]
        { retryBlocked := false, errors := [], attempts := 0 } none).1 ≠
      HandlerOutcome.validationError "E008" := by
  have h := C6_duplicate_title_scope "Algebra" "Q" "A" "" "u1" "2024-02-02"
      (fun _ => AttemptResult.ok "id9")
      (Note.mk "n1" "Algebra" "Q" "A" "" "2024-01-01" 0 "u1")
      (fun _ => AttemptResult.ok ()) (fun _ => "S")
      [Note.mk "n1" "Algebra" "Q" "A" "" "2024-01-01" 0 "u1"]
      { retryBlocked := false, errors := [], attempts := 0 } none
      (by decide) (by decide) (by decide) (by decide) (by decide) (by decide)
      (by decide)
  refine ⟨?_, h.2 ?_⟩
  · have h1 := h.1 ⟨Note.mk "n1" "Algebra" "Q" "A" "" "2024-01-01" 0 "u1",
      by simp, by decide⟩
    simpa [showErr] using h1
  · intro m hm hmt
    simp only [List.mem_singleton] at hm
    rw [hm]

/-- C7: a delete whose trimmed confirmation title differs from the stored
title fails with E009 (ConfirmationMismatch), with the collection, the
attempt count and the mirror unchanged and no remote call; with the exact
title, a successful remote delete removes the note from the collection
and persists the mirror. -/
theorem C7_delete_confirmation_gate (note : Note) (rawConfirmTitle : String)
    (deleteDocOp : Nat → AttemptResult Unit) (stringify : List Note → String)
    (notesData : List Note) (s : ExecState) (mirror : Option String) :
    (jsTrim rawConfirmTitle ≠ note.Title →
      handleDelete note rawConfirmTitle deleteDocOp stringify notesData s
          mirror =
        (HandlerOutcome.validationError "E009", notesData, showErr s "E009",
          mirror))
    ∧ (jsTrim rawConfirmTitle = note.Title →
        ∀ u s1, withRetry deleteDocOp 0 s = (Except.ok u, s1) →
          handleDelete note rawConfirmTitle deleteDocOp stringify notesData s
              mirror =
            (HandlerOutcome.success,
              notesData.filter (fun n => n.id ≠ note.id), s1,
              some (stringify (notesData.filter (fun n => n.id ≠ note.id))))) := by
  constructor
  · intro hne
    simp [handleDelete, hne]
  · intro heq u s1 hw
    simp [handleDelete, heq, hw, saveToLocalStorage]

/-- Witness for C7: wrong title rejected, exact title removes the note. -/
theorem C7_witness :
    handleDelete (Note.mk "n1" "Algebra" "Q" "A" "" "2024-01-01" 0 "u1")
        "Wrong Title" (fun _ => AttemptResult.ok ()) (fun _ => "S")
        [Note.mk "n1" "Algebra" "Q" "A" "" "2024-01-01" 0 "u1"]
        { retryBlocked := false, errors := [], attempts := 0 } none =
      (HandlerOutcome.validationError "E009",
        [Note.mk "n1" "Algebra" "Q" "A" "" "2024-01-01" 0 "u1"],
        { retryBlocked := false, errors := ["E009"], attempts := 0 }, none)
    ∧ handleDelete (Note.mk "n1" "Algebra" "Q" "A" "" "2024-01-01" 0 "u1")
        "Algebra" (fun _ => AttemptResult.ok ()) (fun _ => "S")
        [Note.mk "n1" "Algebra" "Q" "A" "" "2024-01-01" 0 "u1"]
        { retryBlocked := false, errors := [], attempts := 0 } none =
      (HandlerOutcome.success, [],
        { retryBlocked := false, errors := [], attempts := 1 }, some "S") := by
  have h := C7_delete_confirmation_gate
      (Note.mk "n1" "Algebra" "Q" "A" "" "2024-01-01" 0 "u1") "Wrong Title"
      (fun _ => AttemptResult.ok ()) (fun _ => "S")
      [Note.mk "n1" "Algebra" "Q" "A" "" "2024-01-01" 0 "u1"]
      { retryBlocked := false, errors := [], attempts := 0 } none
  have h2 := C7_delete_confirmation_gate
      (Note.mk "n1" "Algebra" "Q" "A" "" "2024-01-01" 0 "u1") "Algebra"
      (fun _ => AttemptResult.ok ()) (fun _ => "S")
      [Note.mk "n1" "Algebra" "Q" "A" "" "2024-01-01" 0 "u1"]
      { retryBlocked := false, errors := [], attempts := 0 } none
  refine ⟨?_, ?_⟩
  · have h1 := h.1 (by decide)
    simpa [showErr] using h1
  · have hok := withRetry_step_ok
      (fun _ => (AttemptResult.ok () : AttemptResult Unit)) 0
      { retryBlocked := false, errors := [], attempts := 0 } rfl () rfl
    have h3 := h2.2 (by decide) ()
      { retryBlocked := false, errors := [], attempts := 1 } hok
    simpa using h3

/-- C8: the miss-mark one-shot guard. A call with `missMarkUsed` set is a
no-op; with the guard clear, a successful remote update sends exactly
`note.MissCount + 1`, sets the in-memory record's count to that value,
persists the mirror and leaves the guard set; on remote failure the
guard is released, E005 is shown and the local count is unchanged; the
display transition of `renderRandomPage` clears the guard. -/
theorem C8_miss_mark_one_shot (note : Note)
    (updateDocOp : Nat → AttemptResult Unit) (stringify : List Note → String)
    (notesData : List Note) (s : ExecState) (mirror : Option String)
    (q : QuizState) (noteId : String) :
    (handleMissMark note updateDocOp stringify true notesData s mirror =
      (HandlerOutcome.noop, none, true, notesData, s, mirror))
    ∧ (∀ pre post, notesData = pre ++ note :: post →
        (∀ m ∈ pre, m.id ≠ note.id) →
        ∀ u s1, withRetry updateDocOp 0 s = (Except.ok u, s1) →
          handleMissMark note updateDocOp stringify false notesData s mirror =
            (HandlerOutcome.success, some (note.MissCount + 1), true,
              pre ++ { note with MissCount := note.MissCount + 1 } :: post,
              s1,
              some (stringify
                (pre ++ { note with MissCount := note.MissCount + 1 } :: post))))
    ∧ (∀ e s1, withRetry updateDocOp 0 s = (Except.error e, s1) →
        handleMissMark note updateDocOp stringify false notesData s mirror =
          (HandlerOutcome.remoteError "E005", some (note.MissCount + 1), false,
            notesData, showErr s1 "E005", mirror))
    ∧ (displayProblem q noteId).missMarkUsed = false := by
  refine ⟨by simp [handleMissMark], ?_, ?_, rfl⟩
  · intro pre post hsplit hpre u s1 hw
    have hfound : notesData.any (fun n => n.id == note.id) = true := by
      rw [List.any_eq_true]
      exact ⟨note, by rw [hsplit]; simp, by simp⟩
    have hupd := updateFirstById_split note.id
        (fun n => { n with MissCount := note.MissCount + 1 }) pre note post
        hpre rfl
    simp [handleMissMark, hw, hfound, hsplit, hupd, saveToLocalStorage]
  · intro e s1 hw
    simp [handleMissMark, hw]

/-- Witness for C8: a successful miss-mark on the second of two notes. -/
theorem C8_witness :
    handleMissMark (Note.mk "n2" "Geometry" "Q2" "A2" "" "2024-01-02" 3 "u1")
        (fun _ => AttemptResult.ok ()) (fun _ => "S") false
        [Note.mk "n1" "Algebra" "Q" "A" "" "2024-01-01" 0 "u1",
          Note.mk "n2" "Geometry" "Q2" "A2" "" "2024-01-02" 3 "u1"]
        { retryBlocked := false, errors := [], attempts := 0 } none =
      (HandlerOutcome.success, some 4, true,
        [Note.mk "n1" "Algebra" "Q" "A" "" "2024-01-01" 0 "u1",
          Note.mk "n2" "Geometry" "Q2" "A2" "" "2024-01-02" 4 "u1"],
        { retryBlocked := false, errors := [], attempts := 1 }, some "S") := by
  have hok := withRetry_step_ok
      (fun _ => (AttemptResult.ok () : AttemptResult Unit)) 0
      { retryBlocked := false, errors := [], attempts := 0 } rfl () rfl
  have h := (C8_miss_mark_one_shot
      (Note.mk "n2" "Geometry" "Q2" "A2" "" "2024-01-02" 3 "u1")
      (fun _ => AttemptResult.ok ()) (fun _ => "S")
      [Note.mk "n1" "Algebra" "Q" "A" "" "2024-01-01" 0 "u1",
        Note.mk "n2" "Geometry" "Q2" "A2" "" "2024-01-02" 3 "u1"]
      { retryBlocked := false, errors := [], attempts := 0 } none
      (QuizState.mk [] none true) "n2").2.1
      [Note.mk "n1" "Algebra" "Q" "A" "" "2024-01-01" 0 "u1"] []
      rfl (by decide) ()
      { retryBlocked := false, errors := [], attempts := 1 } hok
  simpa using h

/-- C9: a successful edit changes only the title, question, answer and
explanation of the edited record: every record of the resulting
collection keeps its document id, creation timestamp, miss count and
owner id. -/
theorem C9_edit_preserves_frame (note : Note)
    (rawTitle rawQuestion rawAnswer rawExplain : String)
    (updateDocOp : Nat → AttemptResult Unit) (stringify : List Note → String)
    (notesData : List Note) (s : ExecState) (mirror : Option String)
    (hT : jsTrim rawTitle ≠ "") (hQ : jsTrim rawQuestion ≠ "")
    (hA : jsTrim rawAnswer ≠ "")
    (hTL : (jsTrim rawTitle).length ≤ TITLE_MAX_LENGTH)
    (hQL : (jsTrim rawQuestion).length ≤ CONTENT_MAX_LENGTH)
    (hAL : (jsTrim rawAnswer).length ≤ CONTENT_MAX_LENGTH)
    (hEL : (jsTrim rawExplain).length ≤ CONTENT_MAX_LENGTH)
    (hdup : notesData.any
      (fun n => n.Title == jsTrim rawTitle && n.id != note.id) = false)
    (u : Unit) (s1 : ExecState)
    (hw : withRetry updateDocOp 0 s = (Except.ok u, s1)) :
    (handleEdit note rawTitle rawQuestion rawAnswer rawExplain updateDocOp
        stringify notesData s mirror).1 = HandlerOutcome.success
    ∧ List.Forall₂ framePreserved
        (handleEdit note rawTitle rawQuestion rawAnswer rawExplain updateDocOp
          stringify notesData s mirror).2.1 notesData := by
  have hTL' : ¬ (TITLE_MAX_LENGTH < (jsTrim rawTitle).length) :=
    Nat.not_lt.mpr hTL
  have hQL' : ¬ (CONTENT_MAX_LENGTH < (jsTrim rawQuestion).length) :=
    Nat.not_lt.mpr hQL
  have hAL' : ¬ (CONTENT_MAX_LENGTH < (jsTrim rawAnswer).length) :=
    Nat.not_lt.mpr hAL
  have hEL' : ¬ (CONTENT_MAX_LENGTH < (jsTrim rawExplain).length) :=
    Nat.not_lt.mpr hEL
  by_cases hfound : notesData.any (fun n => n.id == note.id)
  · constructor
    · simp [handleEdit, hT, hQ, hA, hTL', hQL', hAL', hEL', hdup, hw, hfound]
    · have hf := updateFirstById_applyEdit_frame note.id (jsTrim rawTitle)
        (jsTrim rawQuestion) (jsTrim rawAnswer) (jsTrim rawExplain) notesData
      simpa [handleEdit, hT, hQ, hA, hTL', hQL', hAL', hEL', hdup, hw,
        hfound] using hf
  · constructor
    · simp [handleEdit, hT, hQ, hA, hTL', hQL', hAL', hEL', hdup, hw, hfound]
    · have hf := framePreserved_refl notesData
      simpa [handleEdit, hT, hQ, hA, hTL', hQL', hAL', hEL', hdup, hw,
        hfound] using hf

/-- Witness for C9: editing the question of a stored note succeeds and
preserves id, timestamp, miss count and owner. -/
theorem C9_witness :
    (handleEdit (Note.mk "n1" "Algebra" "Q" "A" "" "2024-01-01" 2 "u1")
        "Algebra" "Q2" "A2" "E" (fun _ => AttemptResult.ok ()) (fun _ => "S")
        [Note.mk "n1" "Algebra" "Q" "A" "" "2024-01-01" 2 "u1"]
        { retryBlocked := false, errors := [], attempts := 0 } none).1 =
      HandlerOutcome.success
    ∧ List.Forall₂ framePreserved
        (handleEdit (Note.mk "n1" "Algebra" "Q" "A" "" "2024-01-01" 2 "u1")
          "Algebra" "Q2" "A2" "E" (fun _ => AttemptResult.ok ()) (fun _ => "S")
          [Note.mk "n1" "Algebra" "Q" "A" "" "2024-01-01" 2 "u1"]
          { retryBlocked := false, errors := [], attempts := 0 } none).2.1
        [Note.mk "n1" "Algebra" "Q" "A" "" "2024-01-01" 2 "u1"] := by
  have hok := withRetry_step_ok
      (fun _ => (AttemptResult.ok () : AttemptResult Unit)) 0
      { retryBlocked := false, errors := [], attempts := 0 } rfl () rfl
  exact C9_edit_preserves_frame
      (Note.mk "n1" "Algebra" "Q" "A" "" "2024-01-01" 2 "u1")
      "Algebra" "Q2" "A2" "E" (fun _ => AttemptResult.ok ()) (fun _ => "S")
      [Note.mk "n1" "Algebra" "Q" "A" "" "2024-01-01" 2 "u1"]
      { retryBlocked := false, errors := [], attempts := 0 } none
      (by decide) (by decide) (by decide) (by decide) (by decide) (by decide)
      (by decide) (by decide) ()
      { retryBlocked := false, errors := [], attempts := 1 } hok
